import Mathlib

/-!
Verification development for the family-genealogy platform backend
(`1-backend/main.py`, `1-backend/auth/google.py`, `1-backend/db/models.py`).

The Python code is shallowly embedded: each database operation becomes a
pure function on an explicit store state, each signed token (PyJWT with a
shared HMAC secret) becomes a payload paired with the key it was signed
with, and each HTTP flow handler becomes a function from its inputs (the
store, the authenticated payload, external outcomes such as the identity
provider's response or the mail collaborator's result) to a response value
and an updated store.  Timestamps are integers (Unix seconds).
-/

/-! ## Token model (`auth/google.py`)

A signed token is modelled as its decoded payload together with the key it
was signed with; `jwtDecode` models `jwt.decode(token, key, ["HS256"])`:
it fails with `invalidToken` when the key differs (bad signature) and with
`expiredSignature` when the `exp` claim is in the past (PyJWT validates
`exp` by default and raises `ExpiredSignatureError`).  Payload fields are
`Option`s because the payload is a Python dict: an absent key is `none`.
-/

structure JwtPayload where
  user_id : Option Nat
  email : Option String
  families : Option (List String)
  family_name : Option String
  type : Option String
  iat : Option Int
  exp : Option Int
  iss : Option String
  sub : Option String
deriving Repr, DecidableEq

structure Jwt where
  payload : JwtPayload
  key : String
deriving Repr, DecidableEq

inductive JwtError
  | invalidToken
  | expiredSignature
deriving Repr, DecidableEq

def jwtEncode (payload : JwtPayload) (key : String) : Jwt :=
  { payload := payload, key := key }

def jwtDecode (token : Jwt) (key : String) (now : Int) : Except JwtError JwtPayload :=
  if token.key ≠ key then .error .invalidToken
  else
    match token.payload.exp with
    | some e => if e < now then .error .expiredSignature else .ok token.payload
    | none => .ok token.payload

/-- `GoogleAuthService.create_jwt_token` (google.py lines 138-166):
session token with `user_id`, `email`, `families or []`, `iat`, `exp`
(`now + expires_hours` hours), issuer and subject claims. -/
def create_jwt_token (jwt_secret : String) (user_id : Nat) (email : String)
    (families : Option (List String)) (now : Int) (expires_hours : Int) : Jwt :=
  let expire := now + expires_hours * 3600
  jwtEncode
    { user_id := some user_id
      email := some email
      families := some (families.getD [])
      family_name := none
      type := none
      iat := some now
      exp := some expire
      iss := some "family-genealogy-platform"
      sub := some (toString user_id) }
    jwt_secret

/-- `GoogleAuthService.verify_jwt_token` (google.py lines 168-194):
decode with the shared secret, then an explicit second expiry check
(`if exp and datetime.fromtimestamp(exp) < now`; note `exp` is tested for
truthiness, so `exp == 0` skips the explicit check).  Any decode error
(`ExpiredSignatureError`, `InvalidTokenError`) yields `None`. -/
def verify_jwt_token (jwt_secret : String) (token : Jwt) (now : Int) :
    Option JwtPayload :=
  match jwtDecode token jwt_secret now with
  | .error _ => none
  | .ok payload =>
    match payload.exp with
    | some e => if e ≠ 0 ∧ e < now then none else some payload
    | none => some payload

/-- `GoogleAuthService.create_verification_token` (google.py lines 196-222):
30-minute token carrying `email`, `family_name`, optional `user_id` and the
purpose tag `type = "email_verification"`. -/
def create_verification_token (jwt_secret : String) (email : String)
    (family_name : String) (user_id : Option Nat) (now : Int) : Jwt :=
  let expire := now + 30 * 60
  jwtEncode
    { user_id := user_id
      email := some email
      families := none
      family_name := some family_name
      type := some "email_verification"
      iat := some now
      exp := some expire
      iss := some "family-genealogy-platform"
      sub := none }
    jwt_secret

/-- `GoogleAuthService.verify_verification_token` (google.py lines 224-249):
decode with the shared secret (PyJWT's built-in `exp` validation applies),
then reject payloads whose `type` is not `"email_verification"`. -/
def verify_verification_token (jwt_secret : String) (token : Jwt) (now : Int) :
    Option JwtPayload :=
  match jwtDecode token jwt_secret now with
  | .error _ => none
  | .ok payload =>
    if payload.type = some "email_verification" then some payload else none

/-! ## Access store (`db/models.py`)

Rows of the four tables the claims touch, and a `DbState` holding the
table contents as lists (insertion order preserved, mirroring SQLite
autoincrement row order).  Each `DatabaseManager` method becomes a pure
function from a `DbState` (plus a `now` timestamp where the Python code
reads the clock) to its result and the updated `DbState`. -/

structure UserRow where
  id : Nat
  email : String
  google_id : String
  name : String
  picture_url : Option String
  verified_at : Option Int
  created_at : Int
  last_login : Option Int
  is_active : Bool
deriving Repr, DecidableEq

structure FamilyAccessRow where
  id : Nat
  user_id : Nat
  family_name : String
  granted_at : Int
  granted_by : String
  is_active : Bool
deriving Repr, DecidableEq

structure UserConsentRow where
  id : Nat
  user_id : Nat
  family_name : String
  marketing_consent : Bool
  terms_accepted : Bool
  consent_version : String
  consented_at : Int
  updated_at : Int
  ip_address : Option String
  user_agent : Option String
deriving Repr, DecidableEq

structure FamilyInvitationCodeRow where
  id : Nat
  code : String
  family_name : String
  created_by_user_id : Nat
  created_at : Int
  expires_at : Option Int
  max_uses : Option Nat
  current_uses : Nat
  is_active : Bool
  description : Option String
deriving Repr, DecidableEq

structure DbState where
  users : List UserRow
  family_access : List FamilyAccessRow
  user_consent : List UserConsentRow
  invitation_codes : List FamilyInvitationCodeRow
deriving Repr, DecidableEq

def DbState.empty : DbState :=
  { users := [], family_access := [], user_consent := [], invitation_codes := [] }

/-! Structurally recursive models of the Python `str` methods the code
uses (`split`, `strip`, `lower`, `startswith`, `title`).  The library's
`String.splitOn`, `String.trim`, `String.toLower` and
`String.startsWith` are byte-position loops defined by well-founded
recursion, which the kernel cannot evaluate; these character-list
versions compute the same functions and reduce definitionally, so
counterexamples and witnesses can be checked by `decide`/`rfl`. -/

/-- `str.split(sep)` for a one-character separator, over the character
list (`acc` holds the current segment reversed). -/
def splitCharAux (c : Char) : List Char → List Char → List (List Char)
  | [], acc => [acc.reverse]
  | x :: xs, acc =>
    if x == c then acc.reverse :: splitCharAux c xs []
    else splitCharAux c xs (x :: acc)

def pySplitChar (c : Char) (s : String) : List String :=
  (splitCharAux c s.data []).map String.mk

def charPrefixOf : List Char → List Char → Bool
  | [], _ => true
  | _ :: _, [] => false
  | x :: xs, y :: ys => x == y && charPrefixOf xs ys

/-- `s.startswith(pre)`. -/
def pyStartsWith (s pre : String) : Bool :=
  charPrefixOf pre.data s.data

/-- `s.lower()` (ASCII, which covers the code's inputs). -/
def pyLower (s : String) : String :=
  String.mk (s.data.map Char.toLower)

def dropLeadingWs : List Char → List Char
  | [] => []
  | x :: xs => if x.isWhitespace then dropLeadingWs xs else x :: xs

/-- `s.strip()`. -/
def pyStrip (s : String) : String :=
  String.mk ((dropLeadingWs (dropLeadingWs s.data).reverse).reverse)

def pyCapitalize (s : String) : String :=
  match s.data with
  | [] => ""
  | c :: cs => String.mk (c.toUpper :: cs)

/-- Python `str.title()` restricted to space-separated words (the family
names reaching it are trimmed lowercase strings): each word's first
letter is upcased. -/
def pyTitle (s : String) : String :=
  String.intercalate " " ((pySplitChar ' ' s).map pyCapitalize)

/-- Fresh autoincrement id: one more than the largest id present. -/
def nextId (ids : List Nat) : Nat :=
  ids.foldr max 0 + 1

/-- `get_valid_families` (models.py lines 161-164): the `FAMILY_NAMES`
environment value (default `"bull,north,klingenberg,herrman"`) split on
commas, each name stripped.  The environment value is a parameter. -/
def get_valid_families (env_family_names : Option String) : List String :=
  (pySplitChar ',' (env_family_names.getD "bull,north,klingenberg,herrman")).map
    (fun name => pyStrip name)

/-- `is_valid_family` (models.py lines 167-169). -/
def is_valid_family (env_family_names : Option String) (family_name : String) :
    Bool :=
  (get_valid_families env_family_names).contains family_name

/-- `DatabaseManager.get_user_by_email` (models.py lines 184-187):
first user row with the given email (the query does not filter on
`is_active`). -/
def get_user_by_email (db : DbState) (email : String) : Option UserRow :=
  db.users.find? (fun u => u.email == email)

/-- `DatabaseManager.create_user` (models.py lines 194-207): insert a new
user row with defaults (`verified_at = None`, `last_login = None`,
`is_active = True`, `created_at = now`). -/
def create_user (db : DbState) (email : String) (google_id : String)
    (name : String) (picture_url : Option String) (now : Int) :
    UserRow × DbState :=
  let user : UserRow :=
    { id := nextId (db.users.map (fun u => u.id))
      email := email
      google_id := google_id
      name := name
      picture_url := picture_url
      verified_at := none
      created_at := now
      last_login := none
      is_active := true }
  (user, { db with users := db.users ++ [user] })

/-- `DatabaseManager.grant_family_access` (models.py lines 209-221):
always inserts a fresh grant row (no duplicate check), active, stamped
`now`. -/
def grant_family_access (db : DbState) (user_id : Nat) (family_name : String)
    (granted_by : String) (now : Int) : DbState :=
  let access : FamilyAccessRow :=
    { id := nextId (db.family_access.map (fun r => r.id))
      user_id := user_id
      family_name := family_name
      granted_at := now
      granted_by := granted_by
      is_active := true }
  { db with family_access := db.family_access ++ [access] }

/-- `DatabaseManager.get_user_families` (models.py lines 223-230): the
`family_name` of every active grant row of the user, in row order, with
no deduplication. -/
def get_user_families (db : DbState) (user_id : Nat) : List String :=
  (db.family_access.filter (fun r => r.user_id == user_id && r.is_active)).map
    (fun r => r.family_name)

/-- `DatabaseManager.record_consent` (models.py lines 232-248): always
appends a fresh consent row (audit trail). -/
def record_consent (db : DbState) (user_id : Nat) (family_name : String)
    (marketing_consent : Bool) (terms_accepted : Bool)
    (ip_address : Option String) (user_agent : Option String) (now : Int) :
    DbState :=
  let consent : UserConsentRow :=
    { id := nextId (db.user_consent.map (fun r => r.id))
      user_id := user_id
      family_name := family_name
      marketing_consent := marketing_consent
      terms_accepted := terms_accepted
      consent_version := "1.0"
      consented_at := now
      updated_at := now
      ip_address := ip_address
      user_agent := user_agent }
  { db with user_consent := db.user_consent ++ [consent] }

/-- `DatabaseManager.create_invitation_code` (models.py lines 250-281):
the code is the lowercased family name followed by an 8-character random
suffix; the suffix is a parameter here (the only non-determinism).
`expires_days` is tested for truthiness (`if expires_days:`), so both
`None` and `0` mean no expiry. -/
def create_invitation_code (db : DbState) (user_id : Nat)
    (family_name : String) (description : Option String)
    (max_uses : Option Nat) (expires_days : Option Nat)
    (random_part : String) (now : Int) : String × DbState :=
  let full_code := pyLower family_name ++ random_part
  let expires_at : Option Int :=
    match expires_days with
    | some d => if d ≠ 0 then some (now + (d : Int) * 86400) else none
    | none => none
  let invitation : FamilyInvitationCodeRow :=
    { id := nextId (db.invitation_codes.map (fun r => r.id))
      code := full_code
      family_name := family_name
      created_by_user_id := user_id
      created_at := now
      expires_at := expires_at
      max_uses := max_uses
      current_uses := 0
      is_active := true
      description := description }
  (full_code, { db with invitation_codes := db.invitation_codes ++ [invitation] })

/-- `DatabaseManager.get_invitation_code` (models.py lines 283-289):
first active row with the given code. -/
def get_invitation_code (db : DbState) (code : String) :
    Option FamilyInvitationCodeRow :=
  db.invitation_codes.find? (fun c => c.code == code && c.is_active)

/-- `DatabaseManager.use_invitation_code` (models.py lines 291-318).
Validation order as in the source: active row found, then expiry
(`invitation.expires_at and invitation.expires_at < now`; a datetime is
always truthy, so the test is just `expires_at < now` when present), then
exhaustion (`invitation.max_uses and current_uses >= max_uses`; `max_uses`
is tested for truthiness, so both `None` and `0` skip the check).  On
success a grant row is inserted with `granted_by = "invitation_<code>"`
and the use counter of the found row is incremented. -/
def use_invitation_code (db : DbState) (code : String) (user_id : Nat)
    (now : Int) : Bool × DbState :=
  match db.invitation_codes.find? (fun c => c.code == code && c.is_active) with
  | none => (false, db)
  | some invitation =>
    let expired : Bool :=
      match invitation.expires_at with
      | some e => decide (e < now)
      | none => false
    let exhausted : Bool :=
      match invitation.max_uses with
      | some m => (m != 0) && decide (invitation.current_uses ≥ m)
      | none => false
    if expired then (false, db)
    else if exhausted then (false, db)
    else
      let db1 := grant_family_access db user_id invitation.family_name
        ("invitation_" ++ code) now
      let bump := fun (c : FamilyInvitationCodeRow) =>
        if c.id = invitation.id
          then { c with current_uses := c.current_uses + 1 } else c
      let db2 := { db1 with invitation_codes := db1.invitation_codes.map bump }
      (true, db2)

/-! ## Identity exchange (`auth/google.py`) and flow controller (`main.py`)

The network round trip to the identity provider is external: its outcome
is a parameter (`none` models any exception during the exchange, `some
idinfo` a verified identity assertion).  Everything deterministic around
it — the state-string parsing, the user-info extraction — is embedded from
the source. -/

/-- The claims Google's verified identity assertion may carry
(`idinfo` in google.py lines 106-118); absent claims are `none`. -/
structure GoogleIdInfo where
  sub : Option String
  email : Option String
  name : Option String
  picture : Option String
  email_verified : Option Bool
deriving Repr, DecidableEq

/-- The `user_info` dict built in google.py lines 113-119
(`email_verified` defaults to `False` via `.get`). -/
structure UserInfo where
  google_id : Option String
  email : Option String
  name : Option String
  picture : Option String
  email_verified : Bool
deriving Repr, DecidableEq

/-- Result dict of `exchange_code_for_tokens` (google.py lines 123-136). -/
structure ExchangeResult where
  success : Bool
  user_info : Option UserInfo
  family_name : Option String
  state : Option String
  error : Option String
deriving Repr, DecidableEq

/-- Python `state.split(":", 1) if ":" in state else (None, state)`
(google.py line 80): the segment before the first colon (or `None` when
there is no colon) and the remainder. -/
def splitFirstColon (s : String) : Option String × String :=
  match pySplitChar ':' s with
  | [] => (none, s)
  | [_] => (none, s)
  | x :: rest => (some x, String.intercalate ":" rest)

/-- Python `s.split(":", 2)`: split on at most the first two colons. -/
def splitColon2 (s : String) : List String :=
  match pySplitChar ':' s with
  | a :: b :: c :: rest => [a, b, String.intercalate ":" (c :: rest)]
  | l => l

/-- `GoogleAuthService.exchange_code_for_tokens` (google.py lines 67-136).
The state is parsed before the network call; `idinfo?` is the external
outcome of the token exchange plus assertion verification (`none` = any
exception, caught and turned into a `success = False` dict). -/
def exchange_code_for_tokens (idinfo? : Option GoogleIdInfo) (state : String) :
    ExchangeResult :=
  let parsed := splitFirstColon state
  match idinfo? with
  | none =>
    { success := false, user_info := none, family_name := none
      state := none, error := some "exchange failed" }
  | some idinfo =>
    let user_info : UserInfo :=
      { google_id := idinfo.sub
        email := idinfo.email
        name := idinfo.name
        picture := idinfo.picture
        email_verified := idinfo.email_verified.getD false }
    { success := true, user_info := some user_info
      family_name := parsed.1, state := some parsed.2, error := none }

/-- `get_authorization_url` (google.py lines 33-65) encodes the state sent
to the provider as `f"{family_name}:{state}"`; only that state composition
matters here. -/
def get_authorization_url_state (family_name : String) (state : String) :
    String :=
  family_name ++ ":" ++ state

/-- `start_signup` (main.py lines 156-170): the `auth_state` built for a
signup is `f"signup:{email}:{nonce}"`; it is then passed through
`get_authorization_url("signup", auth_state)`, so the state the provider
echoes back to the callback is `"signup:" ++ auth_state`. -/
def start_signup_auth_state (email : String) (nonce : String) : String :=
  "signup:" ++ email ++ ":" ++ nonce

/-- The state parameter the provider returns to `/oauth/callback` for a
signup started with `start_signup` (main.py line 164 composed with
google.py line 48). -/
def start_signup_callback_state (email : String) (nonce : String) : String :=
  get_authorization_url_state "signup" (start_signup_auth_state email nonce)

/-- Response of the `/oauth/callback` route: an HTTP error or a redirect
carrying the session cookie token. -/
inductive CallbackResult
  | httpError (status : Nat) (detail : String)
  | redirect (url : String) (jwt : Jwt)
deriving Repr, DecidableEq

/-- `oauth_callback` (main.py lines 261-339).  The whole body runs inside
`try: ... except Exception as e: raise HTTPException(500, str(e))`, so
every failure — including the `HTTPException`s raised inside the body —
surfaces as a 500 whose detail we model as the original message.
Step order follows the source: exchange, `success` check, `user_info` and
`family_name` extraction, `email_verified` check, `startswith("signup:")`
check, `split(":", 2)` unpacking (a `ValueError` if fewer than three
parts, an `AttributeError` if `family_name` was `None`), email match,
user lookup/creation, timestamp stamping, session token, redirect. -/
def oauth_callback (jwt_secret : String) (db : DbState)
    (idinfo? : Option GoogleIdInfo) (state : String) (now : Int) :
    CallbackResult × DbState :=
  let result := exchange_code_for_tokens idinfo? state
  if !result.success then
    (.httpError 500 ("OAuth exchange failed: " ++ result.error.getD "None"), db)
  else
    match result.user_info with
    | none => (.httpError 500 "KeyError", db)
    | some user_info =>
      match result.family_name with
      | none => (.httpError 500 "AttributeError", db)
      | some signup_info =>
        if !user_info.email_verified then
          (.httpError 500 "Google email not verified", db)
        else if !(pyStartsWith signup_info "signup:") then
          (.httpError 500 "Invalid signup state", db)
        else
          match splitColon2 signup_info with
          | [_, original_email, _] =>
            if user_info.email ≠ some original_email then
              (.httpError 500 "Email mismatch", db)
            else
              let found := get_user_by_email db original_email
              let created :=
                match found with
                | some u => (u, db)
                | none =>
                  create_user db original_email (user_info.google_id.getD "")
                    (user_info.name.getD "") user_info.picture now
              let user := created.1
              let db1 := created.2
              let user1 :=
                { user with verified_at := some now, last_login := some now }
              let stamp := fun (u : UserRow) => if u.id = user.id then user1 else u
              let db2 := { db1 with users := db1.users.map stamp }
              let user_families := get_user_families db2 user.id
              let jwt := create_jwt_token jwt_secret user.id user.email
                (some user_families) now 24
              let redirect_url :=
                match user_families with
                | primary :: _ => "https://family.futurelink.zip/families/" ++ primary
                | [] => "https://family.futurelink.zip/select-family"
              (.redirect redirect_url jwt, db2)
          | _ => (.httpError 500 "ValueError", db)

/-- Response of the `/magic/{token}` route: either the soft redirect to
the generic error page (any failure) or a redirect to the family archive
carrying the session cookie token. -/
inductive MagicResult
  | errorRedirect (url : String)
  | redirect (url : String) (jwt : Jwt)
deriving Repr, DecidableEq

def MagicResult.isRedirect : MagicResult → Bool
  | .redirect _ _ => true
  | .errorRedirect _ => false

def magicErrorUrl : String :=
  "https://family.futurelink.zip/error?message=Invalid+or+expired+link"

/-- `magic_login` (main.py lines 342-396).  The body runs inside
`try: ... except Exception: return RedirectResponse(error page)`, so every
failure — invalid/expired token, missing payload key, unknown user —
degrades to the soft error redirect and leaves the store untouched. -/
def magic_login (jwt_secret : String) (db : DbState) (token : Jwt)
    (now : Int) : MagicResult × DbState :=
  match verify_verification_token jwt_secret token now with
  | none => (.errorRedirect magicErrorUrl, db)
  | some payload =>
    match payload.email with
    | none => (.errorRedirect magicErrorUrl, db)
    | some email =>
      match payload.family_name with
      | none => (.errorRedirect magicErrorUrl, db)
      | some family_name =>
        match get_user_by_email db email with
        | none => (.errorRedirect magicErrorUrl, db)
        | some user =>
          let user1 :=
            { user with verified_at := some now, last_login := some now }
          let stamp := fun (u : UserRow) => if u.id = user.id then user1 else u
          let db1 := { db with users := db.users.map stamp }
          let user_families := get_user_families db1 user.id
          let granted :=
            if !(user_families.contains family_name) then
              (user_families ++ [family_name],
               grant_family_access db1 user.id family_name "magic_link" now)
            else (user_families, db1)
          let jwt := create_jwt_token jwt_secret user.id email
            (some granted.1) now 24
          (.redirect ("https://family.futurelink.zip/families/" ++ family_name)
            jwt, granted.2)

/-- Response of the `/signup/join-family` route. -/
inductive JoinResult
  | httpError (status : Nat) (detail : String)
  | ok (family_name : String) (invitation_code : String) (magic_token : Jwt)
deriving Repr, DecidableEq

/-- `join_family_with_code` (main.py lines 224-258): authentication check,
user lookup, code redemption (400 on failure), then a fresh magic token
for the joined family.  `user["email"]` on a payload without an email key
would raise a `KeyError` that FastAPI surfaces as a 500. -/
def join_family_with_code (jwt_secret : String) (db : DbState)
    (user? : Option JwtPayload) (invitation_code : String) (now : Int) :
    JoinResult × DbState :=
  match user? with
  | none => (.httpError 401 "Not authenticated", db)
  | some user =>
    match user.email with
    | none => (.httpError 500 "KeyError", db)
    | some email =>
      match get_user_by_email db email with
      | none => (.httpError 404 "User not found", db)
      | some db_user =>
        let used := use_invitation_code db invitation_code db_user.id now
        if !used.1 then
          (.httpError 400 "Invalid or expired invitation code", used.2)
        else
          match get_invitation_code used.2 invitation_code with
          | none => (.httpError 500 "AttributeError", used.2)
          | some invitation =>
            let magic_token := create_verification_token jwt_secret email
              invitation.family_name (some db_user.id) now
            (.ok invitation.family_name invitation_code magic_token, used.2)

/-- Response of the `/signup/create-family` route. -/
inductive CreateFamilyResult
  | httpError (status : Nat) (detail : String)
  | ok (family_name : String) (invitation_code : String) (email_sent : Bool)
deriving Repr, DecidableEq

/-- `create_family_code` (main.py lines 172-222): authentication check,
lowercase/trim and length validation of the requested family name (no
allow-list check), user lookup, invitation code creation (default
`max_uses`/`expires_days`), creator grant with method `"family_creator"`,
magic token, best-effort email send (its outcome `email_send_success` is
the collaborator's result and never aborts the flow).  The 8-character
random suffix of the code is the parameter `random_part`. -/
def create_family_code (jwt_secret : String) (db : DbState)
    (user? : Option JwtPayload) (req_family_name : String)
    (req_description : Option String) (random_part : String)
    (email_send_success : Bool) (now : Int) : CreateFamilyResult × DbState :=
  match user? with
  | none => (.httpError 401 "Not authenticated", db)
  | some user =>
    let family_name := pyStrip (pyLower req_family_name)
    if family_name.isEmpty || family_name.length < 2 then
      (.httpError 400 "Family name must be at least 2 characters", db)
    else
      match user.email with
      | none => (.httpError 500 "KeyError", db)
      | some email =>
        match get_user_by_email db email with
        | none => (.httpError 404 "User not found", db)
        | some db_user =>
          let description :=
            match req_description with
            | some d => if d.isEmpty then pyTitle family_name ++ " Family" else d
            | none => pyTitle family_name ++ " Family"
          let created := create_invitation_code db db_user.id family_name
            (some description) none none random_part now
          let invitation_code := created.1
          let db1 := grant_family_access created.2 db_user.id family_name
            "family_creator" now
          let _magic_token := create_verification_token jwt_secret email
            family_name (some db_user.id) now
          (.ok family_name invitation_code email_send_success, db1)

/-- Response of the `/consent/{family}` route. -/
inductive ConsentResult
  | httpError (status : Nat) (detail : String)
  | ok (family : String) (marketing_consent : Bool) (terms_accepted : Bool)
deriving Repr, DecidableEq

/-- The `record_consent` route handler (main.py lines 479-508):
authentication check, allow-list check on the family name, then an
appended consent audit row keyed by the payload's `user_id`
(`user["user_id"]` on a payload without the key raises a `KeyError`,
surfaced by FastAPI as a 500). -/
def record_consent_endpoint (env_family_names : Option String) (db : DbState)
    (user? : Option JwtPayload) (family : String) (marketing_consent : Bool)
    (terms_accepted : Bool) (ip_address : Option String)
    (user_agent : Option String) (now : Int) : ConsentResult × DbState :=
  match user? with
  | none => (.httpError 401 "Not authenticated", db)
  | some user =>
    if !(is_valid_family env_family_names family) then
      (.httpError 400 "Invalid family name", db)
    else
      match user.user_id with
      | none => (.httpError 500 "KeyError", db)
      | some uid =>
        let db1 := record_consent db uid family marketing_consent
          terms_accepted ip_address user_agent now
        (.ok family marketing_consent terms_accepted, db1)

/-! ## Concrete fixtures used by counterexamples and witnesses -/

def exUser : UserRow :=
  { id := 1, email := "user@x.com", google_id := "g-1", name := "User"
    picture_url := none, verified_at := none, created_at := 0
    last_login := none, is_active := true }

def exDb : DbState :=
  { users := [exUser], family_access := [], user_consent := []
    invitation_codes := [] }

/-- A session payload as issued for `exUser` with no families. -/
def exPayload : JwtPayload :=
  { user_id := some 1, email := some "user@x.com", families := some []
    family_name := none, type := none, iat := some 0, exp := some 86400
    iss := some "family-genealogy-platform", sub := some "1" }

/-- Identity assertion matching the signup started for `a@x.com`. -/
def c1idinfo : GoogleIdInfo :=
  { sub := some "g-2", email := some "a@x.com", name := some "A"
    picture := none, email_verified := some true }

/-- An expired-but-well-formed verification-shaped token (exp = 100). -/
def c2token : Jwt :=
  jwtEncode
    { user_id := some 1, email := some "user@x.com", families := none
      family_name := some "bull", type := some "email_verification"
      iat := some 0, exp := some 100, iss := some "family-genealogy-platform"
      sub := none }
    "k"

/-- Store in which user 1 has been granted `"bull"` twice. -/
def c3db : DbState :=
  grant_family_access
    (grant_family_access exDb 1 "bull" "email_verification" 5) 1 "bull"
    "invitation_bullAAAA1111" 6

/-- An active, unexpired invitation code with `max_uses = 0`. -/
def c4inv : FamilyInvitationCodeRow :=
  { id := 1, code := "bullAAAA1111", family_name := "bull"
    created_by_user_id := 1, created_at := 0, expires_at := none
    max_uses := some 0, current_uses := 5, is_active := true
    description := none }

def c4db : DbState :=
  { users := [exUser], family_access := [], user_consent := []
    invitation_codes := [c4inv] }

/-- An active invitation code that expired at time 5. -/
def c4winv : FamilyInvitationCodeRow :=
  { id := 1, code := "bullBBBB2222", family_name := "bull"
    created_by_user_id := 1, created_at := 0, expires_at := some 5
    max_uses := none, current_uses := 0, is_active := true
    description := none }

def c4wdb : DbState :=
  { users := [exUser], family_access := [], user_consent := []
    invitation_codes := [c4winv] }

/-- Magic token for `user@x.com` / family `"jones"`, issued at time 0. -/
def c7tok : Jwt :=
  create_verification_token "k" "user@x.com" "jones" (some 1) 0

/-! ## Theorems -/

/-- C1: the OAuth callback never accepts a signup-start state.  The
exchange keeps only the segment of the state before the first colon, so
`result["family_name"]` is the literal `"signup"` (not
`"signup:<email>:<nonce>"` as the callback's own comment assumes), the
`startswith("signup:")` guard fails, and the callback errors out instead
of creating the user and redirecting to family selection — here evaluated
at the spec's end-to-end input `a@x.com` with a matching verified
identity against an empty store. -/
theorem C1_oauth_callback_rejects_every_signup :
    oauth_callback "k" DbState.empty (some c1idinfo)
      (start_signup_callback_state "a@x.com" "n1") 0
      = (.httpError 500 "Invalid signup state", DbState.empty) := by decide

/-- C9: `verify_jwt_token` never inspects the `type` field, so a
30-minute email-verification/magic token issued by
`create_verification_token` is accepted as a session payload (here one
minute after issuance). -/
theorem C9_verify_jwt_accepts_verification_token :
    verify_jwt_token "k" (create_verification_token "k" "a@x.com" "bull" (some 1) 0) 60
      = some
        { user_id := some 1, email := some "a@x.com", families := none
          family_name := some "bull", type := some "email_verification"
          iat := some 0, exp := some (0 + 30 * 60)
          iss := some "family-genealogy-platform", sub := none } := rfl

/-- C2: a token whose `exp` claim is in the past is never accepted,
whatever its signing key (signature validity) and whatever its payload:
both `verify_jwt_token` (session tokens) and `verify_verification_token`
(email-verification and magic tokens, which share one shape and one
verifier) return `None`. -/
theorem C2_expired_token_never_verifies (jwt_secret : String) (token : Jwt)
    (now e : Int) (hexp : token.payload.exp = some e) (hlt : e < now) :
    verify_jwt_token jwt_secret token now = none ∧
    verify_verification_token jwt_secret token now = none := by
  unfold verify_jwt_token verify_verification_token jwtDecode
  rw [hexp]
  by_cases hk : token.key = jwt_secret
  · simp [hk, hlt]
  · simp [hk]

/-- Witness for C2: a correctly signed verification-shaped token with
`exp = 100`, checked at time 200 with the same key, is rejected by both
verifiers. -/
theorem C2_expired_token_never_verifies_witness :
    verify_jwt_token "k" c2token 200 = none ∧
    verify_verification_token "k" c2token 200 = none :=
  C2_expired_token_never_verifies "k" c2token 200 100 rfl (by decide)

/-- C3 counterexample: after two grants of `"bull"` to user 1,
`get_user_families` returns `"bull"` twice, not once — the read does not
deduplicate. -/
theorem C3_duplicate_grants_counterexample :
    ¬ ((get_user_families c3db 1).count "bull" = 1) := by decide

/-- C3 (amended): `get_user_families` returns one entry per active grant
row, duplicates included: every `grant_family_access` call appends the
granted family name to the user's list, so two grants for the same
(user, family) pair yield the name twice. -/
theorem C3_get_user_families_after_grant (db : DbState) (user_id : Nat)
    (family_name granted_by : String) (now : Int) :
    get_user_families (grant_family_access db user_id family_name granted_by now)
        user_id
      = get_user_families db user_id ++ [family_name] := by
  unfold get_user_families grant_family_access
  simp [List.filter_append]

/-- C4 counterexample: an active, unexpired code with `max_uses = 0` and
`current_uses = 5` is exhausted under the claim's reading
(`current_uses >= max_uses` with `max_uses` set), yet redemption
succeeds: the guard tests the truthiness of `max_uses`, and `0` is falsy.
A grant row is inserted and the use counter incremented. -/
theorem C4_zero_max_uses_counterexample :
    (use_invitation_code c4db "bullAAAA1111" 1 10).1 = true ∧
    (use_invitation_code c4db "bullAAAA1111" 1 10).2.family_access.map
      (fun r => r.family_name) = ["bull"] ∧
    (use_invitation_code c4db "bullAAAA1111" 1 10).2.invitation_codes.map
      (fun c => c.current_uses) = [6] := by decide

/-- C4 (amended): for every invitation code that is missing, inactive,
expired, or exhausted with a nonzero `max_uses` (the truthiness guard
skips the check when `max_uses` is 0 or absent), `use_invitation_code`
returns failure and leaves the store unchanged, and the join-family flow
then responds with the 400 client error, also leaving the store
unchanged. -/
theorem C4_invalid_code_fails_unchanged (jwt_secret : String) (db : DbState)
    (code : String) (now : Int)
    (h : ∀ inv, db.invitation_codes.find?
        (fun c => c.code == code && c.is_active) = some inv →
      (∃ e, inv.expires_at = some e ∧ e < now) ∨
      (∃ m, inv.max_uses = some m ∧ m ≠ 0 ∧ inv.current_uses ≥ m)) :
    (∀ user_id, use_invitation_code db code user_id now = (false, db)) ∧
    (∀ p email u, p.email = some email → get_user_by_email db email = some u →
      join_family_with_code jwt_secret db (some p) code now
        = (.httpError 400 "Invalid or expired invitation code", db)) := by
  have huse : ∀ user_id, use_invitation_code db code user_id now = (false, db) := by
    intro user_id
    unfold use_invitation_code
    cases hfind : db.invitation_codes.find? (fun c => c.code == code && c.is_active) with
    | none => rfl
    | some inv =>
      rcases h inv hfind with ⟨e, he, hlt⟩ | ⟨m, hm, hm0, hge⟩
      · simp [he, hlt]
      · simp [hm, hm0, hge]
  refine ⟨huse, ?_⟩
  intro p email u hp hu
  unfold join_family_with_code
  simp [hp, hu, huse u.id]

/-- Witness for C4: the active code `bullBBBB2222` expired at time 5, so
redeeming it at time 10 fails at the store level and yields the 400
client error through the join-family flow, with the store unchanged. -/
theorem C4_invalid_code_fails_unchanged_witness :
    use_invitation_code c4wdb "bullBBBB2222" 1 10 = (false, c4wdb) ∧
    join_family_with_code "k" c4wdb (some exPayload) "bullBBBB2222" 10
      = (.httpError 400 "Invalid or expired invitation code", c4wdb) := by
  have h : ∀ inv, c4wdb.invitation_codes.find?
      (fun c => c.code == "bullBBBB2222" && c.is_active) = some inv →
      (∃ e, inv.expires_at = some e ∧ e < 10) ∨
      (∃ m, inv.max_uses = some m ∧ m ≠ 0 ∧ inv.current_uses ≥ m) := by
    intro inv hinv
    have hfind : c4wdb.invitation_codes.find?
        (fun c => c.code == "bullBBBB2222" && c.is_active) = some c4winv := by decide
    rw [hfind] at hinv
    obtain rfl := Option.some.inj hinv
    exact Or.inl ⟨5, rfl, by decide⟩
  exact ⟨(C4_invalid_code_fails_unchanged "k" c4wdb "bullBBBB2222" 10 h).1 1,
    (C4_invalid_code_fails_unchanged "k" c4wdb "bullBBBB2222" 10 h).2 exPayload
      "user@x.com" exUser rfl rfl⟩

/-- C5 counterexample: `"zz"` is outside the configured allow-list
(default `bull,north,klingenberg,herrman`), yet create-family (which
checks only that the lowercased/trimmed name has at least 2 characters)
persists a `FamilyAccess` grant row for it. -/
theorem C5_create_family_bypasses_allowlist :
    is_valid_family none "zz" = false ∧
    ((create_family_code "k" exDb (some exPayload) "zz" none "AAAA1111"
        true 0).2.family_access.map (fun r => r.family_name)) = ["zz"] := by
  decide

/-- C5 (amended): only the consent endpoint enforces the family-name
allow-list (rejecting unknown names with a 400 and persisting nothing);
the create-family operation checks only that the lowercased/trimmed name
has at least 2 characters and persists a grant row for it whether or not
it belongs to the allow-list. -/
theorem C5_allowlist_scope (env_family_names : Option String)
    (jwt_secret : String) (db : DbState) :
    (∀ p family mc ta ip ua now,
      is_valid_family env_family_names family = false →
      record_consent_endpoint env_family_names db (some p) family mc ta ip ua now
        = (.httpError 400 "Invalid family name", db)) ∧
    (∀ p email u name desc rp es now,
      p.email = some email → get_user_by_email db email = some u →
      ((pyStrip (pyLower name)).isEmpty
        || decide ((pyStrip (pyLower name)).length < 2)) = false →
      ∃ r, (create_family_code jwt_secret db (some p) name desc rp es
              now).2.family_access
          = db.family_access ++ [r] ∧ r.family_name = pyStrip (pyLower name)) := by
  constructor
  · intro p family mc ta ip ua now hv
    unfold record_consent_endpoint
    simp [hv]
  · intro p email u name desc rp es now hp hu hlen
    unfold create_family_code
    simp only [hlen, hp, hu, Bool.false_eq_true, if_false]
    exact ⟨_, rfl, rfl⟩

/-- Witness for C5: consent for the unknown family `"zz"` is rejected
with a 400 and no store change, while create-family for `"Smith"`
(lowercased to `"smith"`, also outside the default allow-list) persists
a grant row. -/
theorem C5_allowlist_scope_witness :
    record_consent_endpoint none exDb (some exPayload) "zz" true true none
        none 0
      = (.httpError 400 "Invalid family name", exDb) ∧
    ∃ r, (create_family_code "k" exDb (some exPayload) "Smith" none "AAAA1111"
            true 0).2.family_access
        = exDb.family_access ++ [r] ∧ r.family_name = pyStrip (pyLower "Smith") :=
  ⟨(C5_allowlist_scope none "k" exDb).1 exPayload "zz" true true none none 0
      (by decide),
    (C5_allowlist_scope none "k" exDb).2 exPayload "user@x.com" exUser "Smith"
      none "AAAA1111" true 0 rfl rfl (by decide)⟩

/-- C6: every magic-link login whose token fails verification, or whose
verified token carries an email with no existing user row, degrades to
the soft redirect to the generic error page and leaves the store
unchanged — no user row is created and no grant row is inserted. -/
theorem C6_magic_login_failure_soft_redirect (jwt_secret : String)
    (db : DbState) (token : Jwt) (now : Int)
    (h : verify_verification_token jwt_secret token now = none ∨
      ∃ p email, verify_verification_token jwt_secret token now = some p ∧
        p.email = some email ∧ get_user_by_email db email = none) :
    magic_login jwt_secret db token now = (.errorRedirect magicErrorUrl, db) := by
  unfold magic_login
  rcases h with h | ⟨p, email, hv, he, hu⟩
  · rw [h]
  · rw [hv]
    simp only [he]
    cases hf : p.family_name with
    | none => rfl
    | some fam => simp [hu]

/-- Witness for C6: `exPayload` is a session-shaped payload (no
`type = "email_verification"` tag), so a token carrying it fails magic
verification and magic login soft-redirects, leaving `exDb` unchanged. -/
theorem C6_magic_login_failure_soft_redirect_witness :
    magic_login "k" exDb (jwtEncode exPayload "k") 0
      = (.errorRedirect magicErrorUrl, exDb) :=
  C6_magic_login_failure_soft_redirect "k" exDb (jwtEncode exPayload "k") 0
    (Or.inl rfl)

/-- C7 counterexample: the magic token `c7tok` yields a successful login
at time 10 and, against the resulting store, a second successful login at
time 20 — the same token yields two successful logins, so magic links
are not single-use. -/
theorem C7_magic_token_reuse_counterexample :
    ((magic_login "k" exDb c7tok 10).1.isRedirect = true) ∧
    ((magic_login "k" (magic_login "k" exDb c7tok 10).2 c7tok
        20).1.isRedirect = true) := by
  decide

/-- Helper: a magic login that finds a verified payload with email and
family and an existing user always produces the success redirect. -/
theorem magic_login_success_isRedirect (jwt_secret : String) (db : DbState)
    (token : Jwt) (now : Int) (p : JwtPayload) (email fam : String)
    (user : UserRow)
    (hv : verify_verification_token jwt_secret token now = some p)
    (he : p.email = some email) (hf : p.family_name = some fam)
    (hu : get_user_by_email db email = some user) :
    (magic_login jwt_secret db token now).1.isRedirect = true := by
  unfold magic_login
  simp only [hv, he, hf, hu]
  rfl

/-- Helper: a successful magic login rewrites the user table pointwise
(timestamp stamping) and never removes a row. -/
theorem magic_login_success_users (jwt_secret : String) (db : DbState)
    (token : Jwt) (now : Int) (p : JwtPayload) (email fam : String)
    (user : UserRow)
    (hv : verify_verification_token jwt_secret token now = some p)
    (he : p.email = some email) (hf : p.family_name = some fam)
    (hu : get_user_by_email db email = some user) :
    (magic_login jwt_secret db token now).2.users
      = db.users.map (fun u => if u.id = user.id
          then { user with verified_at := some now, last_login := some now }
          else u) := by
  unfold magic_login
  simp only [hv, he, hf, hu]
  split <;> rfl

/-- Helper: replacing the rows whose id matches the found user's by a row
with the same email keeps the email-lookup successful. -/
theorem find_user_stamped (users : List UserRow) (email : String)
    (user user1 : UserRow) (hemail : user1.email = user.email)
    (hfind : users.find? (fun u => u.email == email) = some user) :
    ∃ w, (users.map (fun u => if u.id = user.id then user1 else u)).find?
        (fun u => u.email == email) = some w := by
  have hmem : user ∈ users := List.mem_of_find?_eq_some hfind
  have hp := List.find?_some hfind
  have hex : ∃ x, x ∈ users.map (fun u => if u.id = user.id then user1 else u)
      ∧ (x.email == email) = true := by
    refine ⟨if user.id = user.id then user1 else user,
      List.mem_map_of_mem _ hmem, ?_⟩
    simp [hemail, hp]
  exact Option.isSome_iff_exists.mp (List.find?_isSome.mpr hex)

/-- C7 (amended): magic tokens are time-boxed but not single-use —
verification is stateless, so whenever a magic login with a token
succeeds, an immediately repeated login presenting the same token against
the updated store also succeeds. -/
theorem C7_magic_token_reusable (jwt_secret : String) (db : DbState)
    (token : Jwt) (now : Int) (url : String) (jwt : Jwt)
    (h : (magic_login jwt_secret db token now).1 = .redirect url jwt) :
    (magic_login jwt_secret (magic_login jwt_secret db token now).2 token
        now).1.isRedirect = true := by
  obtain ⟨p, hv⟩ : ∃ p, verify_verification_token jwt_secret token now = some p := by
    cases hv : verify_verification_token jwt_secret token now with
    | none => exfalso; unfold magic_login at h; simp [hv] at h
    | some p => exact ⟨p, rfl⟩
  obtain ⟨email, he⟩ : ∃ e, p.email = some e := by
    cases he : p.email with
    | none => exfalso; unfold magic_login at h; simp [hv, he] at h
    | some e => exact ⟨e, rfl⟩
  obtain ⟨fam, hf⟩ : ∃ f, p.family_name = some f := by
    cases hf : p.family_name with
    | none => exfalso; unfold magic_login at h; simp [hv, he, hf] at h
    | some f => exact ⟨f, rfl⟩
  obtain ⟨user, hu⟩ : ∃ u, get_user_by_email db email = some u := by
    cases hu : get_user_by_email db email with
    | none => exfalso; unfold magic_login at h; simp [hv, he, hf, hu] at h
    | some u => exact ⟨u, rfl⟩
  have husers := magic_login_success_users jwt_secret db token now p email fam
    user hv he hf hu
  obtain ⟨w, hw⟩ := find_user_stamped db.users email user
    { user with verified_at := some now, last_login := some now } rfl hu
  have hu2 : get_user_by_email (magic_login jwt_secret db token now).2 email
      = some w := by
    unfold get_user_by_email
    rw [husers]
    exact hw
  exact magic_login_success_isRedirect jwt_secret _ token now p email fam w
    hv he hf hu2

/-- Witness for C7: instantiates the reuse theorem at the concrete
fixture — the second login with `c7tok` at time 10 succeeds. -/
theorem C7_magic_token_reusable_witness :
    (magic_login "k" (magic_login "k" exDb c7tok 10).2 c7tok
        10).1.isRedirect = true :=
  C7_magic_token_reusable "k" exDb c7tok 10
    "https://family.futurelink.zip/families/jones"
    (create_jwt_token "k" 1 "user@x.com" (some ["jones"]) 10 24) (by decide)

/-- C8: round trip — verifying a freshly issued session token strictly
before its expiry, with the same signing key, succeeds and returns the
issuance inputs (`user_id`, `email`, `families`) with `iat` and `exp`
added. -/
theorem C8_session_round_trip (jwt_secret : String) (user_id : Nat)
    (email : String) (families : List String) (now tnow : Int)
    (h : tnow < now + 24 * 3600) :
    verify_jwt_token jwt_secret
        (create_jwt_token jwt_secret user_id email (some families) now 24) tnow
      = some
        { user_id := some user_id, email := some email
          families := some families, family_name := none, type := none
          iat := some now, exp := some (now + 24 * 3600)
          iss := some "family-genealogy-platform"
          sub := some (toString user_id) } := by
  unfold verify_jwt_token create_jwt_token jwtEncode jwtDecode
  have h1 : ¬ (now + 86400 < tnow) := by omega
  have h2 : ¬ (¬ now + 86400 = 0 ∧ now + 86400 < tnow) := by omega
  simp [h1, h2]

/-- Witness for C8: a token for user 1 / `["bull"]` issued at time 0 and
verified at time 3600 round-trips. -/
theorem C8_session_round_trip_witness :
    verify_jwt_token "k"
        (create_jwt_token "k" 1 "user@x.com" (some ["bull"]) 0 24) 3600
      = some
        { user_id := some 1, email := some "user@x.com"
          families := some ["bull"], family_name := none, type := none
          iat := some 0, exp := some ((0 : Int) + 24 * 3600)
          iss := some "family-genealogy-platform", sub := some (toString 1) } :=
  C8_session_round_trip "k" 1 "user@x.com" ["bull"] 0 3600 (by decide)

/-- Helper: an active code with `max_uses = 0` (truthiness-falsy) and no
past expiry is redeemed successfully. -/
theorem use_invitation_code_zero_max_succeeds (db : DbState) (code : String)
    (uid : Nat) (now : Int) (inv : FamilyInvitationCodeRow)
    (hfind : db.invitation_codes.find?
      (fun c => c.code == code && c.is_active) = some inv)
    (hmax : inv.max_uses = some 0)
    (hexp : ∀ e, inv.expires_at = some e → ¬ e < now) :
    (use_invitation_code db code uid now).1 = true := by
  unfold use_invitation_code
  rw [hfind]
  cases hE : inv.expires_at with
  | none => simp [hmax, hE]
  | some e => simp [hmax, hE, hexp e hE]

/-- Helper: such a redemption leaves the code row findable with the same
`max_uses` and `expires_at`, only its use counter incremented. -/
theorem use_invitation_code_zero_max_state (db : DbState) (code : String)
    (uid : Nat) (now : Int) (inv : FamilyInvitationCodeRow)
    (hfind : db.invitation_codes.find?
      (fun c => c.code == code && c.is_active) = some inv)
    (hmax : inv.max_uses = some 0)
    (hexp : ∀ e, inv.expires_at = some e → ¬ e < now) :
    ((use_invitation_code db code uid now).2).invitation_codes.find?
        (fun c => c.code == code && c.is_active)
      = some { inv with current_uses := inv.current_uses + 1 } := by
  have hcomp : ((fun c : FamilyInvitationCodeRow => c.code == code && c.is_active) ∘
      (fun c => if c.id = inv.id
        then { c with current_uses := c.current_uses + 1 } else c))
      = fun c : FamilyInvitationCodeRow => c.code == code && c.is_active := by
    funext c
    by_cases hc : c.id = inv.id <;> simp [hc]
  unfold use_invitation_code
  rw [hfind]
  cases hE : inv.expires_at with
  | none =>
    simp [hmax, hE, grant_family_access, List.find?_map, hcomp, hfind]
  | some e =>
    simp [hmax, hE, hexp e hE, grant_family_access, List.find?_map, hcomp,
      hfind]

/-- C10: a code whose `max_uses` equals 0 is treated as unlimited: the
exhaustion guard tests the truthiness of `max_uses` and 0 is falsy, so
an otherwise valid code with `max_uses = 0` is redeemed successfully
arbitrarily many times (here: after any number of prior redemptions). -/
theorem C10_zero_max_uses_unlimited (db : DbState) (code : String) (uid : Nat)
    (now : Int) (inv : FamilyInvitationCodeRow)
    (hfind : db.invitation_codes.find?
      (fun c => c.code == code && c.is_active) = some inv)
    (hmax : inv.max_uses = some 0)
    (hexp : ∀ e, inv.expires_at = some e → ¬ e < now) :
    ∀ n, (use_invitation_code
        ((fun d => (use_invitation_code d code uid now).2)^[n] db)
        code uid now).1 = true := by
  have key : ∀ n, ∃ invn,
      ((fun d => (use_invitation_code d code uid now).2)^[n] db).invitation_codes.find?
        (fun c => c.code == code && c.is_active) = some invn
      ∧ invn.max_uses = some 0 ∧ invn.expires_at = inv.expires_at := by
    intro n
    induction n with
    | zero => exact ⟨inv, hfind, hmax, rfl⟩
    | succ n ih =>
      obtain ⟨invn, hf, hm, hE⟩ := ih
      rw [Function.iterate_succ_apply']
      have hexpn : ∀ e, invn.expires_at = some e → ¬ e < now :=
        fun e he => hexp e (hE ▸ he)
      exact ⟨{ invn with current_uses := invn.current_uses + 1 },
        use_invitation_code_zero_max_state _ code uid now invn hf hm hexpn,
        hm, hE⟩
  intro n
  obtain ⟨invn, hf, hm, hE⟩ := key n
  exact use_invitation_code_zero_max_succeeds _ code uid now invn hf hm
    (fun e he => hexp e (hE ▸ he))

/-- Witness for C10: the `max_uses = 0` code of the counterexample store
still redeems successfully after three prior redemptions. -/
theorem C10_zero_max_uses_unlimited_witness :
    (use_invitation_code
        ((fun d => (use_invitation_code d "bullAAAA1111" 1 10).2)^[3] c4db)
        "bullAAAA1111" 1 10).1 = true :=
  C10_zero_max_uses_unlimited c4db "bullAAAA1111" 1 10 c4inv rfl rfl
    (fun _e he => Option.noConfusion he) 3
